import Mathlib

set_option maxHeartbeats 1000000

/-!
Shallow embedding of the CLI-to-subprocess translation layer of
`cargo-contract`, namely `crates/cargo-contract/src/cmd/build.rs`
(`BuildCommand::exec`, `get_extension_from_filename`) and
`crates/cargo-contract/src/cmd/solidity.rs` (`build_solidity_contract`).

Filesystem and process effects (`std::fs::canonicalize`, file existence,
`ManifestPath::try_from`, shell spawning, the external compiler's exit
status and standard output) are supplied by an explicit environment
record `Env`; the two Rust functions become pure functions from the
environment and the parsed flag record to an outcome trace that records
the returned value together with the externally observable events the
claims talk about (whether the Solidity branch was entered, whether the
subprocess stage was reached, the assembled command line, the resolved
output directory).
-/

/-- Verbosity level, mirroring `contract_build::Verbosity`. -/
inductive Verbosity where
  | Quiet
  | Verbose
  | Default
deriving DecidableEq, Repr

/-- Raw verbosity CLI flags, mirroring `contract_build::VerbosityFlags`
(`--quiet` / `--verbose`). -/
structure VerbosityFlags where
  quiet : Bool
  verbose : Bool
deriving DecidableEq, Repr

/-- Modelled from the spec: the conversion of the user-supplied verbosity
flags into a verbosity level is performed by the external `contract_build`
crate (`TryFrom<&VerbosityFlags> for Verbosity`), whose source is not part
of this fragment.  Neither flag yields the default level, exactly one flag
yields the corresponding level, and supplying both is a flag-conflict
error. -/
def Verbosity.tryFromFlags (f : VerbosityFlags) : Except String Verbosity :=
  match f.quiet, f.verbose with
  | false, false => Except.ok Verbosity.Default
  | true, false => Except.ok Verbosity.Quiet
  | false, true => Except.ok Verbosity.Verbose
  | true, true => Except.error "Cannot pass both --quiet and --verbose flags"

/-- Build mode, mirroring `contract_build::BuildMode`. -/
inductive BuildMode where
  | Debug
  | Release
deriving DecidableEq, Repr

/-- Network choice, mirroring `contract_build::Network`. -/
inductive Network where
  | Offline
  | Online
deriving DecidableEq, Repr

/-- Artifact selection, mirroring `contract_build::BuildArtifacts`. -/
inductive BuildArtifacts where
  | All
  | CodeOnly
  | CheckOnly
deriving DecidableEq, Repr

/-- Output format, mirroring `contract_build::OutputType`. -/
inductive OutputType where
  | HumanReadable
  | Json
deriving DecidableEq, Repr

/-- Optimization-pass selector, mirroring `contract_build::OptimizationPasses`. -/
inductive OptimizationPasses where
  | Zero
  | One
  | Two
  | Three
  | Four
  | S
  | Z
deriving DecidableEq, Repr

/-- Modelled from the spec: the bytecode format being compiled to
(`--target <wasm|...>`); the concrete enum lives in the external
`contract_build` crate, so it is modelled as a named format. -/
structure Target where
  name : String
deriving DecidableEq, Repr

/-- Modelled from the spec: the feature set handed to the build pipeline;
its concrete representation lives in the external `contract_build` crate. -/
structure Features where
  features : List String
deriving DecidableEq, Repr

/-- Modelled from the spec: the unstable-options record; its concrete
representation and its (delegated) conversion live in the external
`contract_build` crate, so the conversion is modelled as the identity. -/
structure UnstableFlags where
  original_manifest : Bool
deriving DecidableEq, Repr

/-- Options record handed to the native build-pipeline entry point,
mirroring `contract_build::ExecuteArgs`. -/
structure ExecuteArgs where
  manifest_path : String
  verbosity : Verbosity
  build_mode : BuildMode
  features : Features
  network : Network
  build_artifact : BuildArtifacts
  unstable_flags : UnstableFlags
  optimization_passes : Option OptimizationPasses
  keep_debug_symbols : Bool
  lint : Bool
  output_type : OutputType
  skip_wasm_validation : Bool
  target : Target
  max_memory_pages : Nat
deriving DecidableEq, Repr

/-- Outcome record, mirroring `contract_build::BuildResult` (paths are
modelled as strings). -/
structure BuildResult where
  target_directory : String
  build_mode : BuildMode
  build_artifact : BuildArtifacts
  verbosity : Verbosity
  output_type : OutputType
  dest_wasm : Option String
  metadata_result : Option Unit
  optimization_result : Option Unit
deriving DecidableEq, Repr

/-- Parsed CLI flag record, mirroring the `clap`-derived `BuildCommand`
struct of `build.rs` field for field. -/
structure BuildCommand where
  manifest_path : Option String
  build_release : Bool
  build_offline : Bool
  lint : Bool
  build_artifact : BuildArtifacts
  features : Features
  verbosity : VerbosityFlags
  unstable_options : UnstableFlags
  optimization_passes : Option OptimizationPasses
  keep_debug_symbols : Bool
  output_json : Bool
  skip_wasm_validation : Bool
  target : Target
  max_memory_pages : Nat
  solang : Bool
  emit : Option String
  contract : Option String
  no_constant_folding : Bool
  no_strength_reduce : Bool
  optimizer_level : Option String
  no_dead_storage : Bool
  address_length : Option Nat
  no_vector_to_slice : Bool
  no_cse : Bool
  value_length : Option Nat
  standard_json : Bool
  output : Option String
  output_meta : Option String
  import_path : Option String
  import_map : Option String
  no_log_api_return_codes : Bool
  no_log_runtime_errors : Bool
  no_print : Bool
  solidity_filename : Option String

/-- Environment supplying the filesystem and process effects that the two
Rust functions perform: path canonicalization (`std::fs::canonicalize`,
`none` meaning the call fails), file existence, the delegated manifest-path
resolution of the native pipeline, whether spawning the platform shell
succeeds, and the external compiler's exit status and captured standard
output. -/
structure Env where
  canonicalizePath : String → Option String
  fileExists : String → Bool
  resolveManifest : Option String → Except String String
  shellSpawnOk : Bool
  compilerExit : Int
  compilerStdout : String
  compilerStderr : String

/-- Message carried by the `io::Error` that `std::fs::canonicalize` returns
on a missing path; the OS-generated text names the errno, not the path that
was being canonicalized. -/
def canonicalizeErrMsg : String := "No such file or directory (os error 2)"

/-- Captured output of the spawned subprocess, mirroring
`std::process::Output`; the code reads only `stdout`. -/
structure ProcessOutput where
  status : Int
  stdout : String
  stderr : String
deriving DecidableEq, Repr

/-- Split a character list at every occurrence of a separator character
(structural-recursion counterpart of splitting used by the extension
computation below). -/
def splitOnChar (c : Char) : List Char → List (List Char)
  | [] => [[]]
  | x :: xs =>
    let r := splitOnChar c xs
    if x = c then [] :: r
    else
      match r with
      | [] => [[x]]
      | h :: t => (x :: h) :: t

/-- Does `l` start with `pat`? -/
def startsWithChars : List Char → List Char → Bool
  | [], _ => true
  | _ :: _, [] => false
  | a :: as, b :: bs => a = b && startsWithChars as bs

/-- Does `pat` occur as a contiguous run inside `l`? -/
def hasSubChars (pat : List Char) : List Char → Bool
  | [] => startsWithChars pat []
  | l@(_ :: rest) => startsWithChars pat l || hasSubChars pat rest

/-- Does the message `msg` mention the path `path` anywhere? -/
def mentionsPath (msg path : String) : Bool :=
  hasSubChars path.toList msg.toList

/-- Embedding of `get_extension_from_filename` of `build.rs`, i.e. of
`Path::new(filename).extension().and_then(OsStr::to_str)`: the extension of
the final path component is the part after its last dot; a component with
no dot, a bare `.` or `..` component, or a leading-dot-only name such as
`.sol` has no extension. -/
def get_extension_from_filename (filename : String) : Option String :=
  let comps := (splitOnChar '/' filename.toList).filter (fun c => c ≠ [])
  match comps.getLast? with
  | none => none
  | some fname =>
    if fname = ['.'] ∨ fname = ['.', '.'] then none
    else
      match splitOnChar '.' fname with
      | [] => none
      | [_] => none
      | first :: rest =>
        if first = [] ∧ rest.length = 1 then none
        else (rest.getLast?).map (fun chars => String.mk chars)

/-- Join string tokens with a separator, mirroring Rust's
`Vec::<String>::join`. -/
def joinWith (sep : String) : List String → String
  | [] => ""
  | [x] => x
  | x :: xs => x ++ sep ++ joinWith sep xs

/-- Outcome trace of `build_solidity_contract`: the returned value plus the
observable events the surrounding claims are about. -/
structure SolidityOutcome where
  result : Except String Unit
  spawnedShell : Bool
  tokens : Option (List String)
  arg : Option String
  usedOutputDir : Option String
  printedStdout : Option String

/-- Embedding of `build_solidity_contract` of `solidity.rs`.  The function
re-canonicalizes the project root, resolves the reported output directory
(metadata-output rendering first, else output rendering, else the
canonical root), probes for the `solang` binary (printing only), joins the
fixed token vector into a single shell command line, and spawns the
platform shell; the spawned process's exit status is never inspected — only
its standard output is read (and printed) — and the function returns `Ok`
whenever the shell was spawned.  A failed shell spawn is the
`expect("failed to execute process")` panic. -/
def build_solidity_contract (env : Env)
    (emit contract no_constant_folding no_strength_reduce optimizer_level
      no_dead_storage target address_length no_vector_to_slice no_cse
      value_length standard_json verbose output_dir output_meta
      importpath importmap no_log_api_return_codes no_log_runtime_errors
      no_print release solidity_filename : String) : SolidityOutcome :=
  match env.canonicalizePath "./" with
  | none =>
    { result := Except.error canonicalizeErrMsg, spawnedShell := false,
      tokens := none, arg := none, usedOutputDir := none,
      printedStdout := none }
  | some canonical_project_root_dir_str =>
    let empty : String := ""
    let used_output_dir : String :=
      if output_meta = empty then
        if output_dir = empty then canonical_project_root_dir_str
        else output_dir
      else output_meta
    -- the `Command::new("solang").spawn()` probe only prints messages
    let arr : List String :=
      ["solang", "compile", emit, contract, no_constant_folding,
        no_strength_reduce, optimizer_level, no_dead_storage, target,
        address_length, no_vector_to_slice, no_cse, value_length,
        standard_json, verbose, output_dir, output_meta, importpath,
        importmap, no_log_api_return_codes, no_log_runtime_errors,
        no_print, release, solidity_filename]
    let arg : String := joinWith " " arr
    if env.shellSpawnOk then
      let output : ProcessOutput :=
        { status := env.compilerExit, stdout := env.compilerStdout,
          stderr := env.compilerStderr }
      { result := Except.ok (), spawnedShell := true, tokens := some arr,
        arg := some arg, usedOutputDir := some used_output_dir,
        printedStdout := some output.stdout }
    else
      { result := Except.error "failed to execute process",
        spawnedShell := true, tokens := some arr, arg := some arg,
        usedOutputDir := some used_output_dir, printedStdout := none }

/-- Step handed to the rest of the program by `BuildCommand::exec`: either
the synthesized Solidity-path `BuildResult`, or the `ExecuteArgs` record
passed to the native build-pipeline entry point `contract_build::execute`
(whose own behaviour is external to this fragment). -/
inductive ExecStep where
  | solidity (result : BuildResult)
  | native (args : ExecuteArgs)
deriving DecidableEq, Repr

/-- Outcome trace of `BuildCommand::exec`. -/
structure ExecOutcome where
  result : Except String ExecStep
  enteredSolidity : Bool
  spawnedShell : Bool
  calledNative : Bool
  assembledTokens : Option (List String)
  assembledArg : Option String
  usedOutputDir : Option String
  printedStdout : Option String

/-- Error outcome of `exec` with no observable subprocess events. -/
def errOutcome (msg : String) (entered : Bool) : ExecOutcome :=
  { result := Except.error msg, enteredSolidity := entered,
    spawnedShell := false, calledNative := false, assembledTokens := none,
    assembledArg := none, usedOutputDir := none, printedStdout := none }

/-- Rendering pattern used by `exec` for every valued Solang flag: a present
option becomes `vec![flag, " ", value].concat()`, an absent one the empty
string. -/
def renderJoin (flag : String) (o : Option String) : String :=
  match o with
  | some v => String.join [flag, " ", v]
  | none => ""

/-- Rendering pattern used by `exec` for every boolean Solang flag: starting
from the empty string, the flag token is assigned when the switch is set. -/
def renderIf (b : Bool) (flag : String) : String :=
  if b then flag else ""

/-- Rendering of the `--verbose` passthrough: set exactly when the converted
verbosity level is the verbose one (`build.rs` lines 286-290). -/
def renderVerbose (v : Verbosity) : String :=
  if v = Verbosity.Verbose then "--verbose" else ""

/-- The call of `build_solidity_contract` made by `BuildCommand::exec`
(`build.rs` lines 219-363): each Solidity passthrough flag is rendered to
its string form and passed positionally; the `--target` slot is hard-coded
to `"--target substrate"` and the source filename is passed bare. -/
def solangCall (env : Env) (cmd : BuildCommand) (v : Verbosity)
    (solidity_filename : String) : SolidityOutcome :=
  build_solidity_contract env
    (renderJoin "--emit" cmd.emit)
    (renderJoin "--contract" cmd.contract)
    (renderIf cmd.no_constant_folding "--no-constant-folding")
    (renderIf cmd.no_strength_reduce "--no-strength-reduce")
    (renderJoin "-O" cmd.optimizer_level)
    (renderIf cmd.no_dead_storage "--no-dead-storage")
    "--target substrate"
    (renderJoin "--address-length" (cmd.address_length.map toString))
    (renderIf cmd.no_vector_to_slice "--no-vector-to-slice")
    (renderIf cmd.no_cse "--no-cse")
    (renderJoin "--value-length" (cmd.value_length.map toString))
    (renderIf cmd.standard_json "--standard-json")
    (renderVerbose v)
    (renderJoin "--output" cmd.output)
    (renderJoin "--output-meta" cmd.output_meta)
    (renderJoin "-I" cmd.import_path)
    (renderJoin "-m" cmd.import_map)
    (renderIf cmd.no_log_api_return_codes "--no-log-api-return-codes")
    (renderIf cmd.no_log_runtime_errors "--no-log-runtime-errors")
    (renderIf cmd.no_print "--no-print")
    (renderIf cmd.build_release "--release")
    solidity_filename

/-- The `BuildResult` synthesized by the Solidity path (`build.rs` lines
368-390): built from the input flags only — `target_directory` is the
rendered `--output` string, `dest_wasm` the rendered `--output-meta`
string, `build_artifact` fixed to `All`, `output_type` fixed to `Json`,
and the verbosity collapses every non-verbose level to the default. -/
def solidityBuildResult (cmd : BuildCommand) (v : Verbosity) : BuildResult :=
  { target_directory := renderJoin "--output" cmd.output,
    build_mode :=
      if cmd.build_release then BuildMode.Release else BuildMode.Debug,
    build_artifact := BuildArtifacts.All,
    verbosity :=
      if v = Verbosity.Verbose then Verbosity.Verbose else Verbosity.Default,
    output_type := OutputType.Json,
    dest_wasm := some (renderJoin "--output-meta" cmd.output_meta),
    metadata_result := none,
    optimization_result := none }

/-- Solidity (`--solang`) branch of `BuildCommand::exec` (`build.rs` lines
186-391): canonicalize the project root, require the source-file flag,
canonicalize the source path, check extension and existence, convert the
verbosity flags, call `build_solidity_contract`, and on success synthesize
the dummy `BuildResult`. -/
def execSolang (env : Env) (cmd : BuildCommand) : ExecOutcome :=
  match env.canonicalizePath "./" with
  | none => errOutcome canonicalizeErrMsg true
  | some _canonical_project_root_dir_str =>
    match cmd.solidity_filename with
    | none => errOutcome "Unable to find solidity_filename: None" true
    | some _solidity_filename =>
      match env.canonicalizePath _solidity_filename with
      | none => errOutcome canonicalizeErrMsg true
      | some canonical_solidity_file_dir =>
        let exists_solidity_file : Bool :=
          env.fileExists canonical_solidity_file_dir
        if get_extension_from_filename _solidity_filename ≠ some "sol"
            ∨ exists_solidity_file = false then
          errOutcome ("Unable to find file \"" ++ _solidity_filename ++
            "\" with Solidity file extension in the project root") true
        else
          match Verbosity.tryFromFlags cmd.verbosity with
          | Except.error e => errOutcome e true
          | Except.ok _verbosity =>
            let o : SolidityOutcome :=
              solangCall env cmd _verbosity _solidity_filename
            match o.result with
            | Except.error e =>
              { result := Except.error e, enteredSolidity := true,
                spawnedShell := o.spawnedShell, calledNative := false,
                assembledTokens := o.tokens, assembledArg := o.arg,
                usedOutputDir := o.usedOutputDir,
                printedStdout := o.printedStdout }
            | Except.ok _ =>
              { result := Except.ok
                  (ExecStep.solidity (solidityBuildResult cmd _verbosity)),
                enteredSolidity := true, spawnedShell := o.spawnedShell,
                calledNative := false, assembledTokens := o.tokens,
                assembledArg := o.arg, usedOutputDir := o.usedOutputDir,
                printedStdout := o.printedStdout }

/-- The `ExecuteArgs` record built on the native path (`build.rs` lines
393-434), with quiet verbosity forced when JSON output was requested. -/
def nativeExecuteArgs (cmd : BuildCommand) (manifest_path : String)
    (v : Verbosity) : ExecuteArgs :=
  let build_mode : BuildMode :=
    if cmd.build_release then BuildMode.Release else BuildMode.Debug
  let network : Network :=
    if cmd.build_offline then Network.Offline else Network.Online
  let output_type : OutputType :=
    if cmd.output_json then OutputType.Json else OutputType.HumanReadable
  -- we want to ensure that the only thing in STDOUT is the JSON string
  let verbosity : Verbosity :=
    if output_type = OutputType.Json then Verbosity.Quiet else v
  { manifest_path := manifest_path, verbosity := verbosity,
    build_mode := build_mode, features := cmd.features,
    network := network, build_artifact := cmd.build_artifact,
    unstable_flags := cmd.unstable_options,
    optimization_passes := cmd.optimization_passes,
    keep_debug_symbols := cmd.keep_debug_symbols,
    lint := cmd.lint, output_type := output_type,
    skip_wasm_validation := cmd.skip_wasm_validation,
    target := cmd.target,
    max_memory_pages := cmd.max_memory_pages }

/-- Native branch of `BuildCommand::exec` (`build.rs` lines 393-436):
resolve the manifest, convert the unstable options (delegated, modelled as
the identity) and the verbosity flags, then hand `ExecuteArgs` to
`contract_build::execute`. -/
def execNative (env : Env) (cmd : BuildCommand) : ExecOutcome :=
  match env.resolveManifest cmd.manifest_path with
  | Except.error e => errOutcome e false
  | Except.ok manifest_path =>
    match Verbosity.tryFromFlags cmd.verbosity with
    | Except.error e => errOutcome e false
    | Except.ok v =>
      { result := Except.ok
          (ExecStep.native (nativeExecuteArgs cmd manifest_path v)),
        enteredSolidity := false, spawnedShell := false,
        calledNative := true, assembledTokens := none,
        assembledArg := none, usedOutputDir := none,
        printedStdout := none }

/-- Embedding of `BuildCommand::exec` of `build.rs`: the `--solang` flag
selects the Solidity subprocess path; otherwise the native build-pipeline
path runs. -/
def BuildCommand.exec (env : Env) (cmd : BuildCommand) : ExecOutcome :=
  if cmd.solang then execSolang env cmd else execNative env cmd

/-- Native-path options record extracted from an outcome, when the outcome
is a successful hand-off to `contract_build::execute`. -/
def nativeArgsOf (o : ExecOutcome) : Option ExecuteArgs :=
  match o.result with
  | Except.ok (ExecStep.native args) => some args
  | _ => none

/-- The token vector that `build_solidity_contract` assembles for the
argument values `BuildCommand::exec` passes it: binary name, subcommand,
the twenty-one rendered flag slots in source order, and the bare source
filename. -/
def solangTokens (cmd : BuildCommand) (v : Verbosity) (fname : String) :
    List String :=
  ["solang", "compile",
    renderJoin "--emit" cmd.emit,
    renderJoin "--contract" cmd.contract,
    renderIf cmd.no_constant_folding "--no-constant-folding",
    renderIf cmd.no_strength_reduce "--no-strength-reduce",
    renderJoin "-O" cmd.optimizer_level,
    renderIf cmd.no_dead_storage "--no-dead-storage",
    "--target substrate",
    renderJoin "--address-length" (cmd.address_length.map toString),
    renderIf cmd.no_vector_to_slice "--no-vector-to-slice",
    renderIf cmd.no_cse "--no-cse",
    renderJoin "--value-length" (cmd.value_length.map toString),
    renderIf cmd.standard_json "--standard-json",
    renderVerbose v,
    renderJoin "--output" cmd.output,
    renderJoin "--output-meta" cmd.output_meta,
    renderJoin "-I" cmd.import_path,
    renderJoin "-m" cmd.import_map,
    renderIf cmd.no_log_api_return_codes "--no-log-api-return-codes",
    renderIf cmd.no_log_runtime_errors "--no-log-runtime-errors",
    renderIf cmd.no_print "--no-print",
    renderIf cmd.build_release "--release",
    fname]

/-- The output directory `build_solidity_contract` resolves (and reports)
for the rendered flag strings `exec` passes it. -/
def usedOutputDirOf (cmd : BuildCommand) (root : String) : String :=
  if renderJoin "--output-meta" cmd.output_meta = "" then
    if renderJoin "--output" cmd.output = "" then root
    else renderJoin "--output" cmd.output
  else renderJoin "--output-meta" cmd.output_meta

/-- Rendering of one option exactly as the specification words it: a
present option renders as its flag name followed by its value, an absent
one as the empty token.  Stated from the spec's words for comparison with
the renderings the code performs. -/
def renderValuedFlag (flag : String) (o : Option String) : String :=
  match o with
  | some v => flag ++ " " ++ v
  | none => ""

/-- The command-line token sequence as the amended assembly claim words
it: fixed order; valued options render as flag name, space, value; boolean
options as the bare flag name; the target slot is the fixed pair
`--target substrate`; the verbose slot follows the converted verbosity;
the source filename is the bare value; absent options are empty tokens. -/
def amendedTokens (cmd : BuildCommand) (v : Verbosity) (fname : String) :
    List String :=
  ["solang", "compile",
    renderValuedFlag "--emit" cmd.emit,
    renderValuedFlag "--contract" cmd.contract,
    renderIf cmd.no_constant_folding "--no-constant-folding",
    renderIf cmd.no_strength_reduce "--no-strength-reduce",
    renderValuedFlag "-O" cmd.optimizer_level,
    renderIf cmd.no_dead_storage "--no-dead-storage",
    "--target substrate",
    renderValuedFlag "--address-length" (cmd.address_length.map toString),
    renderIf cmd.no_vector_to_slice "--no-vector-to-slice",
    renderIf cmd.no_cse "--no-cse",
    renderValuedFlag "--value-length" (cmd.value_length.map toString),
    renderIf cmd.standard_json "--standard-json",
    renderVerbose v,
    renderValuedFlag "--output" cmd.output,
    renderValuedFlag "--output-meta" cmd.output_meta,
    renderValuedFlag "-I" cmd.import_path,
    renderValuedFlag "-m" cmd.import_map,
    renderIf cmd.no_log_api_return_codes "--no-log-api-return-codes",
    renderIf cmd.no_log_runtime_errors "--no-log-runtime-errors",
    renderIf cmd.no_print "--no-print",
    renderIf cmd.build_release "--release",
    fname]

/-- Concrete environment for witnesses and counterexamples: a project root
`/proj` containing `flipper.sol` (a Solidity file) and `foo.txt` (an
existing non-Solidity file); every other path fails to canonicalize; the
shell spawns fine and the external compiler exits cleanly. -/
def env0 : Env :=
  { canonicalizePath := fun p =>
      if p = "./" then some "/proj"
      else if p = "flipper.sol" then some "/proj/flipper.sol"
      else if p = "foo.txt" then some "/proj/foo.txt"
      else none,
    fileExists := fun p => p == "/proj/flipper.sol" || p == "/proj/foo.txt",
    resolveManifest := fun _ => Except.ok "/proj/Cargo.toml",
    shellSpawnOk := true,
    compilerExit := 0,
    compilerStdout := "compiled",
    compilerStderr := "" }

/-- Concrete flag record for witnesses: Solidity mode on `flipper.sol`,
every optional flag absent, every switch off. -/
def cmd0 : BuildCommand :=
  { manifest_path := none, build_release := false, build_offline := false,
    lint := false, build_artifact := BuildArtifacts.All,
    features := { features := [] },
    verbosity := { quiet := false, verbose := false },
    unstable_options := { original_manifest := false },
    optimization_passes := none, keep_debug_symbols := false,
    output_json := false, skip_wasm_validation := false,
    target := { name := "wasm" }, max_memory_pages := 16, solang := true,
    emit := none, contract := none, no_constant_folding := false,
    no_strength_reduce := false, optimizer_level := none,
    no_dead_storage := false, address_length := none,
    no_vector_to_slice := false, no_cse := false, value_length := none,
    standard_json := false, output := none, output_meta := none,
    import_path := none, import_map := none,
    no_log_api_return_codes := false, no_log_runtime_errors := false,
    no_print := false, solidity_filename := some "flipper.sol" }

/-- Variant of `cmd0` supplying only the metadata-output flag. -/
def cmdMeta : BuildCommand := { cmd0 with output_meta := some "/a" }

/-- Variant of `cmd0` naming a Solidity source file that does not exist. -/
def cmdMissing : BuildCommand :=
  { cmd0 with solidity_filename := some "missing.sol" }

/-- Variant of `cmd0` naming an existing file with a non-Solidity
extension. -/
def cmdTxt : BuildCommand := { cmd0 with solidity_filename := some "foo.txt" }

/-- Variant of `cmd0` in Solidity mode with the source-file flag absent. -/
def cmdNoFn : BuildCommand := { cmd0 with solidity_filename := none }

/-- Variant of `cmd0` on the native path with JSON output requested. -/
def cmdJson : BuildCommand :=
  { cmd0 with solang := false, output_json := true }

/-- Variant of `cmd0` on the native path with `--release` passed. -/
def cmdRelease : BuildCommand :=
  { cmd0 with solang := false, build_release := true }

theorem string_join3 (a b c : String) : String.join [a, b, c] = a ++ b ++ c := by
  show (("" ++ a) ++ b) ++ c = a ++ b ++ c
  rw [String.empty_append]

theorem append_ne_empty_left (a b : String) (h : a ≠ "") : a ++ b ≠ "" := by
  intro hab
  apply h
  have hd : a.data ++ b.data = [] := congrArg String.data hab
  rcases List.append_eq_nil.mp hd with ⟨h1, _⟩
  cases a
  simp only at h1
  simp [h1]

theorem renderJoin_eq (flag : String) (o : Option String) :
    renderJoin flag o = renderValuedFlag flag o := by
  cases o <;> simp [renderJoin, renderValuedFlag, string_join3]

theorem bsc_spawn_outcome (env : Env)
    (emit contract no_constant_folding no_strength_reduce optimizer_level
      no_dead_storage target address_length no_vector_to_slice no_cse
      value_length standard_json verbose output_dir output_meta
      importpath importmap no_log_api_return_codes no_log_runtime_errors
      no_print release solidity_filename root : String)
    (hroot : env.canonicalizePath "./" = some root)
    (hspawn : env.shellSpawnOk = true) :
    build_solidity_contract env emit contract no_constant_folding
      no_strength_reduce optimizer_level no_dead_storage target
      address_length no_vector_to_slice no_cse value_length standard_json
      verbose output_dir output_meta importpath importmap
      no_log_api_return_codes no_log_runtime_errors no_print release
      solidity_filename =
    { result := Except.ok (), spawnedShell := true,
      tokens := some ["solang", "compile", emit, contract,
        no_constant_folding, no_strength_reduce, optimizer_level,
        no_dead_storage, target, address_length, no_vector_to_slice,
        no_cse, value_length, standard_json, verbose, output_dir,
        output_meta, importpath, importmap, no_log_api_return_codes,
        no_log_runtime_errors, no_print, release, solidity_filename],
      arg := some (joinWith " " ["solang", "compile", emit, contract,
        no_constant_folding, no_strength_reduce, optimizer_level,
        no_dead_storage, target, address_length, no_vector_to_slice,
        no_cse, value_length, standard_json, verbose, output_dir,
        output_meta, importpath, importmap, no_log_api_return_codes,
        no_log_runtime_errors, no_print, release, solidity_filename]),
      usedOutputDir := some
        (if output_meta = "" then
          if output_dir = "" then root else output_dir
        else output_meta),
      printedStdout := some env.compilerStdout } := by
  simp only [build_solidity_contract, hroot, hspawn, if_true]

theorem exec_eq_solang (env : Env) (cmd : BuildCommand)
    (hs : cmd.solang = true) :
    BuildCommand.exec env cmd = execSolang env cmd := by
  simp [BuildCommand.exec, hs]

theorem exec_eq_native (env : Env) (cmd : BuildCommand)
    (hs : cmd.solang = false) :
    BuildCommand.exec env cmd = execNative env cmd := by
  simp [BuildCommand.exec, hs]

theorem execSolang_success (env : Env) (cmd : BuildCommand)
    (f root cf : String) (v : Verbosity)
    (hroot : env.canonicalizePath "./" = some root)
    (hf : cmd.solidity_filename = some f)
    (hcf : env.canonicalizePath f = some cf)
    (hext : get_extension_from_filename f = some "sol")
    (hex : env.fileExists cf = true)
    (hv : Verbosity.tryFromFlags cmd.verbosity = Except.ok v)
    (hspawn : env.shellSpawnOk = true) :
    execSolang env cmd =
    { result := Except.ok (ExecStep.solidity (solidityBuildResult cmd v)),
      enteredSolidity := true, spawnedShell := true, calledNative := false,
      assembledTokens := some (solangTokens cmd v f),
      assembledArg := some (joinWith " " (solangTokens cmd v f)),
      usedOutputDir := some (usedOutputDirOf cmd root),
      printedStdout := some env.compilerStdout } := by
  simp only [execSolang, hroot, hf, hcf, hext, hex, hv, solangCall,
    bsc_spawn_outcome env _ _ _ _ _ _ _ _ _ _ _ _ _ _ _ _ _ _ _ _ _ _ root
      hroot hspawn]
  simp [solangTokens, usedOutputDirOf]

theorem execSolang_entered (env : Env) (cmd : BuildCommand) :
    (execSolang env cmd).enteredSolidity = true := by
  unfold execSolang
  repeat' split
  all_goals try simp [errOutcome]
  all_goals (split <;> try simp [errOutcome])
  all_goals (split <;> simp [errOutcome])

theorem execSolang_not_native (env : Env) (cmd : BuildCommand) :
    (execSolang env cmd).calledNative = false := by
  unfold execSolang
  repeat' split
  all_goals try simp [errOutcome]
  all_goals (split <;> try simp [errOutcome])
  all_goals (split <;> simp [errOutcome])

theorem execNative_not_entered (env : Env) (cmd : BuildCommand) :
    (execNative env cmd).enteredSolidity = false := by
  unfold execNative
  repeat' split
  all_goals simp [errOutcome]

theorem bsc_tokens_cases (env : Env)
    (emit contract no_constant_folding no_strength_reduce optimizer_level
      no_dead_storage target address_length no_vector_to_slice no_cse
      value_length standard_json verbose output_dir output_meta
      importpath importmap no_log_api_return_codes no_log_runtime_errors
      no_print release solidity_filename : String) (l : List String)
    (h : (build_solidity_contract env emit contract no_constant_folding
      no_strength_reduce optimizer_level no_dead_storage target
      address_length no_vector_to_slice no_cse value_length standard_json
      verbose output_dir output_meta importpath importmap
      no_log_api_return_codes no_log_runtime_errors no_print release
      solidity_filename).tokens = some l) :
    l = ["solang", "compile", emit, contract, no_constant_folding,
      no_strength_reduce, optimizer_level, no_dead_storage, target,
      address_length, no_vector_to_slice, no_cse, value_length,
      standard_json, verbose, output_dir, output_meta, importpath,
      importmap, no_log_api_return_codes, no_log_runtime_errors, no_print,
      release, solidity_filename] := by
  unfold build_solidity_contract at h
  repeat' split at h
  all_goals simp at h
  all_goals exact h.symm

/-- C1 counterexample: with only `--output-meta=/a` supplied, the resolved
output directory recorded by the Solidity path is the rendered flag string
`"--output-meta /a"`, not the bare value `/a` the claim states. -/
theorem output_meta_value_not_bare_counterexample :
    (BuildCommand.exec env0 cmdMeta).usedOutputDir =
      some "--output-meta /a" ∧
    ("--output-meta /a" : String) ≠ "/a" :=
  ⟨rfl, by decide⟩

/-- C1 (amended): on the Solidity path the output directory is resolved
with the claimed priority — metadata-output flag first, else the
output-directory flag, else the canonicalized current directory — but a
supplied flag resolves to its rendered flag string (flag name, space,
value), not to the bare value. -/
theorem solidity_output_dir_priority (env : Env) (cmd : BuildCommand)
    (f root cf : String) (v : Verbosity)
    (hs : cmd.solang = true)
    (hroot : env.canonicalizePath "./" = some root)
    (hf : cmd.solidity_filename = some f)
    (hcf : env.canonicalizePath f = some cf)
    (hext : get_extension_from_filename f = some "sol")
    (hex : env.fileExists cf = true)
    (hv : Verbosity.tryFromFlags cmd.verbosity = Except.ok v)
    (hspawn : env.shellSpawnOk = true) :
    (BuildCommand.exec env cmd).usedOutputDir = some
      (match cmd.output_meta with
       | some m => "--output-meta" ++ " " ++ m
       | none =>
         match cmd.output with
         | some o2 => "--output" ++ " " ++ o2
         | none => root) := by
  rw [exec_eq_solang env cmd hs,
    execSolang_success env cmd f root cf v hroot hf hcf hext hex hv hspawn]
  unfold usedOutputDirOf
  cases hm : cmd.output_meta
  · cases ho : cmd.output
    · simp [renderJoin]
    · rename_i o2
      have hne : "--output " ++ o2 ≠ "" :=
        append_ne_empty_left _ _ (by decide)
      simp [renderJoin, string_join3, hne]
  · rename_i m
    have hne : "--output-meta " ++ m ≠ "" :=
      append_ne_empty_left _ _ (by decide)
    simp [renderJoin, string_join3, hne]

/-- C1 witness: the amended resolution evaluated with only
`--output-meta=/a` supplied. -/
theorem solidity_output_dir_priority_witness :
    (BuildCommand.exec env0 cmdMeta).usedOutputDir =
      some ("--output-meta" ++ " " ++ "/a") :=
  solidity_output_dir_priority env0 cmdMeta "flipper.sol" "/proj"
    "/proj/flipper.sol" Verbosity.Default rfl rfl rfl rfl rfl rfl rfl rfl

/-- C2: once the platform shell spawns, the Solidity path returns `Ok`
with a `BuildResult` synthesized purely from the input flags
(`solidityBuildResult`), and the result is unchanged under any external
compiler exit status, captured standard output, or standard error. -/
theorem solidity_spawn_ok_ignores_compiler_status (env : Env)
    (cmd : BuildCommand) (f root cf : String) (v : Verbosity)
    (hs : cmd.solang = true)
    (hroot : env.canonicalizePath "./" = some root)
    (hf : cmd.solidity_filename = some f)
    (hcf : env.canonicalizePath f = some cf)
    (hext : get_extension_from_filename f = some "sol")
    (hex : env.fileExists cf = true)
    (hv : Verbosity.tryFromFlags cmd.verbosity = Except.ok v)
    (hspawn : env.shellSpawnOk = true) :
    (BuildCommand.exec env cmd).result =
      Except.ok (ExecStep.solidity (solidityBuildResult cmd v)) ∧
    ∀ (code : Int) (out err : String),
      (BuildCommand.exec
        { env with
            compilerExit := code,
            compilerStdout := out,
            compilerStderr := err } cmd).result =
      Except.ok (ExecStep.solidity (solidityBuildResult cmd v)) := by
  constructor
  · rw [exec_eq_solang env cmd hs,
      execSolang_success env cmd f root cf v hroot hf hcf hext hex hv hspawn]
  · intro code out err
    rw [exec_eq_solang
        { env with
            compilerExit := code,
            compilerStdout := out,
            compilerStderr := err } cmd hs,
      execSolang_success
        { env with
            compilerExit := code,
            compilerStdout := out,
            compilerStderr := err }
        cmd f root cf v hroot hf hcf hext hex hv hspawn]

/-- C2 witness: the concrete success result, unchanged when the external
compiler exits with code 101 and error output. -/
theorem solidity_spawn_ok_ignores_compiler_status_witness :
    (BuildCommand.exec env0 cmd0).result =
      Except.ok (ExecStep.solidity (solidityBuildResult cmd0
        Verbosity.Default)) ∧
    (BuildCommand.exec
      { env0 with
          compilerExit := 101,
          compilerStdout := "",
          compilerStderr := "error: boom" } cmd0).result =
      Except.ok (ExecStep.solidity (solidityBuildResult cmd0
        Verbosity.Default)) := by
  have h := solidity_spawn_ok_ignores_compiler_status env0 cmd0
    "flipper.sol" "/proj" "/proj/flipper.sol" Verbosity.Default
    rfl rfl rfl rfl rfl rfl rfl rfl
  exact ⟨h.1, h.2 101 "" "error: boom"⟩

/-- C3: in Solidity mode with the source-file flag absent, `exec` fails
with the configuration error naming the missing flag, and no subprocess
stage is ever reached. -/
theorem missing_solidity_filename_config_error (env : Env)
    (cmd : BuildCommand) (root : String)
    (hs : cmd.solang = true)
    (hroot : env.canonicalizePath "./" = some root)
    (hfn : cmd.solidity_filename = none) :
    (BuildCommand.exec env cmd).result =
      Except.error "Unable to find solidity_filename: None" ∧
    (BuildCommand.exec env cmd).spawnedShell = false := by
  rw [exec_eq_solang env cmd hs]
  simp [execSolang, hroot, hfn, errOutcome]

/-- C3 witness: the configuration failure evaluated at a concrete
invocation with no source-file flag. -/
theorem missing_solidity_filename_config_error_witness :
    (BuildCommand.exec env0 cmdNoFn).result =
      Except.error "Unable to find solidity_filename: None" ∧
    (BuildCommand.exec env0 cmdNoFn).spawnedShell = false :=
  missing_solidity_filename_config_error env0 cmdNoFn "/proj" rfl rfl rfl

/-- C4 counterexample: for a Solidity-mode invocation naming a
non-existent source file, `exec` fails with the canonicalization OS error,
whose message does not name the offending path (contradicting the claim
that the error message names the path). -/
theorem nonexistent_source_error_omits_path :
    (BuildCommand.exec env0 cmdMissing).result =
      Except.error canonicalizeErrMsg ∧
    mentionsPath canonicalizeErrMsg "missing.sol" = false :=
  ⟨rfl, rfl⟩

/-- C4 (amended): in Solidity mode, a source path that canonicalizes but
lacks the `.sol` extension fails with an error naming the offending path,
while a source file that does not exist makes canonicalization itself
fail, so `exec` returns the OS error, which does not include the path; in
both cases no compiler subprocess stage is reached. -/
theorem solidity_source_validation_errors (env : Env) (cmd : BuildCommand)
    (f root : String)
    (hs : cmd.solang = true)
    (hroot : env.canonicalizePath "./" = some root)
    (hf : cmd.solidity_filename = some f) :
    (∀ cf, env.canonicalizePath f = some cf →
      get_extension_from_filename f ≠ some "sol" →
      (BuildCommand.exec env cmd).result =
        Except.error ("Unable to find file \"" ++ f ++
          "\" with Solidity file extension in the project root") ∧
      (BuildCommand.exec env cmd).spawnedShell = false) ∧
    (env.canonicalizePath f = none →
      (BuildCommand.exec env cmd).result = Except.error canonicalizeErrMsg ∧
      (BuildCommand.exec env cmd).spawnedShell = false) := by
  constructor
  · intro cf hcf hext
    rw [exec_eq_solang env cmd hs]
    simp [execSolang, hroot, hf, hcf, hext, errOutcome]
  · intro hcf
    rw [exec_eq_solang env cmd hs]
    simp [execSolang, hroot, hf, hcf, errOutcome]

/-- C4 witness: both amended branches evaluated concretely — an existing
`.txt` file fails with the path-naming extension error, and a missing
`.sol` file fails with the canonicalization OS error; neither spawns. -/
theorem solidity_source_validation_errors_witness :
    ((BuildCommand.exec env0 cmdTxt).result =
      Except.error ("Unable to find file \"" ++ "foo.txt" ++
        "\" with Solidity file extension in the project root") ∧
     (BuildCommand.exec env0 cmdTxt).spawnedShell = false) ∧
    ((BuildCommand.exec env0 cmdMissing).result =
      Except.error canonicalizeErrMsg ∧
     (BuildCommand.exec env0 cmdMissing).spawnedShell = false) := by
  constructor
  · exact (solidity_source_validation_errors env0 cmdTxt "foo.txt" "/proj"
      rfl rfl rfl).1 "/proj/foo.txt" rfl (by decide)
  · exact (solidity_source_validation_errors env0 cmdMissing "missing.sol"
      "/proj" rfl rfl rfl).2 rfl

/-- C5: on the native path with `--output-json` set, the options record
handed to the build pipeline always carries the quiet verbosity level,
whatever verbosity level the user flags converted to. -/
theorem output_json_forces_quiet_verbosity (env : Env)
    (cmd : BuildCommand) (m : String) (v : Verbosity)
    (hs : cmd.solang = false)
    (hj : cmd.output_json = true)
    (hm : env.resolveManifest cmd.manifest_path = Except.ok m)
    (hv : Verbosity.tryFromFlags cmd.verbosity = Except.ok v) :
    (BuildCommand.exec env cmd).result =
      Except.ok (ExecStep.native (nativeExecuteArgs cmd m v)) ∧
    (nativeExecuteArgs cmd m v).verbosity = Verbosity.Quiet := by
  constructor
  · rw [exec_eq_native env cmd hs]
    simp [execNative, hm, hv]
  · simp [nativeExecuteArgs, hj]

/-- C5 witness: the forced quiet level evaluated at a concrete JSON-output
invocation whose user verbosity converts to the default level. -/
theorem output_json_forces_quiet_verbosity_witness :
    (BuildCommand.exec env0 cmdJson).result =
      Except.ok (ExecStep.native
        (nativeExecuteArgs cmdJson "/proj/Cargo.toml" Verbosity.Default)) ∧
    (nativeExecuteArgs cmdJson "/proj/Cargo.toml"
      Verbosity.Default).verbosity = Verbosity.Quiet :=
  output_json_forces_quiet_verbosity env0 cmdJson "/proj/Cargo.toml"
    Verbosity.Default rfl rfl rfl rfl

/-- C6: without `--solang`, the options record handed to the native
build-pipeline entry point has `build_mode` equal to `Release` exactly
when `--release` was passed, and `Debug` otherwise. -/
theorem release_flag_determines_build_mode (env : Env)
    (cmd : BuildCommand) (m : String) (v : Verbosity)
    (hs : cmd.solang = false)
    (hm : env.resolveManifest cmd.manifest_path = Except.ok m)
    (hv : Verbosity.tryFromFlags cmd.verbosity = Except.ok v) :
    (BuildCommand.exec env cmd).result =
      Except.ok (ExecStep.native (nativeExecuteArgs cmd m v)) ∧
    ((nativeExecuteArgs cmd m v).build_mode = BuildMode.Release ↔
      cmd.build_release = true) := by
  constructor
  · rw [exec_eq_native env cmd hs]
    simp [execNative, hm, hv]
  · cases hb : cmd.build_release <;> simp [nativeExecuteArgs, hb]

/-- C6 witness: the release build mode evaluated at a concrete native
invocation with `--release` passed. -/
theorem release_flag_determines_build_mode_witness :
    (BuildCommand.exec env0 cmdRelease).result =
      Except.ok (ExecStep.native
        (nativeExecuteArgs cmdRelease "/proj/Cargo.toml"
          Verbosity.Default)) ∧
    ((nativeExecuteArgs cmdRelease "/proj/Cargo.toml"
      Verbosity.Default).build_mode = BuildMode.Release ↔
      cmdRelease.build_release = true) :=
  release_flag_determines_build_mode env0 cmdRelease "/proj/Cargo.toml"
    Verbosity.Default rfl rfl rfl

/-- C7 counterexample: the token the assembled command line carries for
the (present) source-file flag is the bare value, not the flag name
followed by its value as the claim's per-flag rendering states. -/
theorem solidity_filename_token_shape_counterexample :
    ((BuildCommand.exec env0 cmd0).assembledTokens.getD []).getLastD ""
      = "flipper.sol" ∧
    renderValuedFlag "--solidity-filename" cmd0.solidity_filename =
      "--solidity-filename flipper.sol" ∧
    ("flipper.sol" : String) ≠ "--solidity-filename flipper.sol" :=
  ⟨rfl, rfl, by decide⟩

/-- C7 (amended): the assembled Solidity command line is the single-space
join, in fixed order, of the binary name, the subcommand token, and one
token per slot, where valued options render as flag name, space, value;
boolean options as the bare flag name; the target slot is the fixed token
`--target substrate`; the source filename is its bare value; and absent
options are empty tokens (leaving redundant separating spaces). -/
theorem solidity_command_line_assembly (env : Env) (cmd : BuildCommand)
    (f root cf : String) (v : Verbosity)
    (hs : cmd.solang = true)
    (hroot : env.canonicalizePath "./" = some root)
    (hf : cmd.solidity_filename = some f)
    (hcf : env.canonicalizePath f = some cf)
    (hext : get_extension_from_filename f = some "sol")
    (hex : env.fileExists cf = true)
    (hv : Verbosity.tryFromFlags cmd.verbosity = Except.ok v)
    (hspawn : env.shellSpawnOk = true) :
    (BuildCommand.exec env cmd).assembledTokens =
      some (amendedTokens cmd v f) ∧
    (BuildCommand.exec env cmd).assembledArg =
      some (joinWith " " (amendedTokens cmd v f)) := by
  have ht : solangTokens cmd v f = amendedTokens cmd v f := by
    simp [solangTokens, amendedTokens, renderJoin_eq]
  rw [exec_eq_solang env cmd hs,
    execSolang_success env cmd f root cf v hroot hf hcf hext hex hv hspawn]
  constructor <;> simp [ht]

/-- C7 witness: the amended assembly evaluated at a concrete invocation
with every optional flag absent. -/
theorem solidity_command_line_assembly_witness :
    (BuildCommand.exec env0 cmd0).assembledTokens =
      some (amendedTokens cmd0 Verbosity.Default "flipper.sol") ∧
    (BuildCommand.exec env0 cmd0).assembledArg =
      some (joinWith " " (amendedTokens cmd0 Verbosity.Default
        "flipper.sol")) :=
  solidity_command_line_assembly env0 cmd0 "flipper.sol" "/proj"
    "/proj/flipper.sol" Verbosity.Default rfl rfl rfl rfl rfl rfl rfl rfl

/-- C8: per invocation exactly one of the two execution paths runs and the
`--solang` flag is the sole discriminator — the Solidity branch is entered
exactly when the flag is set, the native pipeline is only ever called when
it is unset, and the two never both run. -/
theorem mode_flag_sole_discriminator (env : Env) (cmd : BuildCommand) :
    (BuildCommand.exec env cmd).enteredSolidity = cmd.solang ∧
    ((BuildCommand.exec env cmd).calledNative = true →
      cmd.solang = false) ∧
    ¬((BuildCommand.exec env cmd).enteredSolidity = true ∧
      (BuildCommand.exec env cmd).calledNative = true) := by
  cases hs : cmd.solang
  · rw [exec_eq_native env cmd hs]
    refine ⟨execNative_not_entered env cmd, fun _ => rfl, ?_⟩
    rintro ⟨h1, _⟩
    rw [execNative_not_entered env cmd] at h1
    exact Bool.false_ne_true h1
  · rw [exec_eq_solang env cmd hs]
    refine ⟨execSolang_entered env cmd, fun hc => ?_, ?_⟩
    · rw [execSolang_not_native env cmd] at hc
      exact (Bool.false_ne_true hc).elim
    · rintro ⟨_, h2⟩
      rw [execSolang_not_native env cmd] at h2
      exact Bool.false_ne_true h2

/-- C9: every assembled Solidity command line carries the fixed token
`--target substrate`, and the user-supplied `--target` CLI flag never
influences a Solidity-path invocation at all. -/
theorem solidity_target_hardcoded (env : Env) (cmd : BuildCommand)
    (hs : cmd.solang = true) :
    (∀ l, (BuildCommand.exec env cmd).assembledTokens = some l →
      "--target substrate" ∈ l) ∧
    (∀ t, BuildCommand.exec env { cmd with target := t } =
      BuildCommand.exec env cmd) := by
  constructor
  · intro l hl
    rw [exec_eq_solang env cmd hs] at hl
    unfold execSolang at hl
    repeat' split at hl
    all_goals try (simp [errOutcome] at hl)
    all_goals (split at hl <;> try (simp [errOutcome] at hl))
    all_goals (split at hl <;> simp [errOutcome] at hl)
    all_goals
      (rw [bsc_tokens_cases env _ _ _ _ _ _ _ _ _ _ _ _ _ _ _ _ _ _ _ _ _ _
        l hl]
       simp)
  · intro t
    cases cmd
    simp only at hs
    subst hs
    rfl

/-- C9 witness: the fixed target token present in a concrete assembled
token list, and a concrete change of the `--target` flag leaving the
whole outcome unchanged. -/
theorem solidity_target_hardcoded_witness :
    "--target substrate" ∈
      ((BuildCommand.exec env0 cmd0).assembledTokens.getD []) ∧
    BuildCommand.exec env0 { cmd0 with target := { name := "evm" } } =
      BuildCommand.exec env0 cmd0 := by
  have h := solidity_target_hardcoded env0 cmd0 rfl
  exact ⟨h.1 _ rfl, h.2 { name := "evm" }⟩

/-- C10: whenever the Solidity path returns successfully, the returned
`BuildResult` has `build_artifact` fixed to `All`, `output_type` fixed to
`Json`, and a verbosity that is either `Verbose` or `Default` — never
`Quiet`. -/
theorem solidity_result_fixed_fields (env : Env) (cmd : BuildCommand)
    (r : BuildResult)
    (h : (BuildCommand.exec env cmd).result =
      Except.ok (ExecStep.solidity r)) :
    r.build_artifact = BuildArtifacts.All ∧
    r.output_type = OutputType.Json ∧
    (r.verbosity = Verbosity.Verbose ∨ r.verbosity = Verbosity.Default) := by
  by_cases hs : cmd.solang = true
  · rw [exec_eq_solang env cmd hs] at h
    unfold execSolang at h
    repeat' split at h
    all_goals try (simp [errOutcome] at h)
    all_goals (split at h <;> try (simp [errOutcome] at h))
    all_goals (split at h <;> simp [errOutcome] at h)
    all_goals (obtain rfl := h.symm; simp [solidityBuildResult])
    all_goals exact Decidable.em _
  · rw [exec_eq_native env cmd (by simpa using hs)] at h
    unfold execNative at h
    repeat' split at h
    all_goals simp [errOutcome] at h

/-- C10 witness: the fixed fields evaluated on the concrete result of a
successful Solidity-path invocation. -/
theorem solidity_result_fixed_fields_witness :
    (solidityBuildResult cmd0 Verbosity.Default).build_artifact =
      BuildArtifacts.All ∧
    (solidityBuildResult cmd0 Verbosity.Default).output_type =
      OutputType.Json ∧
    ((solidityBuildResult cmd0 Verbosity.Default).verbosity =
      Verbosity.Verbose ∨
     (solidityBuildResult cmd0 Verbosity.Default).verbosity =
      Verbosity.Default) :=
  solidity_result_fixed_fields env0 cmd0
    (solidityBuildResult cmd0 Verbosity.Default) rfl
